import Mathlib

set_option maxRecDepth 8000

/- Shallow embedding of the conversation/session state core of the
   qwen-omni-openai-serve chat client (the `src/ui` React application).

   Modelling conventions:
   * JS strings are Lean `String`; JS millisecond timestamps are `Nat`.
   * Optional / possibly-`undefined` fields are `Option`.
   * JS truthiness of a string value (`if (s)`) is an explicit `s = ""` test;
     truthiness of a defined array is plain presence (arrays are truthy in JS).
   * `localStorage`-backed collections are explicit `List` values threaded
     through the functions; each storage function takes the current stored
     collection and returns the updated one.
   * `Array.prototype.sort` with comparator `(a, b) => b.updatedAt - a.updatedAt`
     is a stable descending sort by `updatedAt`, modelled by a stable
     insertion sort. -/

/-! ## Data model (src/ui/src/utils/storage.ts, src/unnamed/part_009) -/

structure ToolCallFunction where
  name : String
  arguments : String
deriving DecidableEq

structure ToolCall where
  id : String
  type : String
  function : ToolCallFunction
deriving DecidableEq

/-- One entry of `Chat.messages` (storage.ts lines 13-22); `role` is kept as a
raw string because at runtime the TypeScript union is just a string compared
with `===`. -/
structure Message where
  role : String
  content : String
  audioData : Option String := none
  imageUrl : Option String := none
  videoUrl : Option String := none
  timestamp : Nat
  toolCalls : Option (List ToolCall) := none
  toolCallId : Option String := none
deriving DecidableEq

/-- The Chat aggregate (storage.ts lines 10-25). -/
structure Chat where
  id : String
  title : String
  messages : List Message
  createdAt : Nat
  updatedAt : Nat
deriving DecidableEq

/-! ## Conversation Repository (src/ui/src/utils/storage.ts) -/

def MAX_CHATS : Nat := 50

/-- JS `s.slice(0, n)` on a string. -/
def jsSlice (s : String) (n : Nat) : String := String.mk (s.data.take n)

/-- JS `s.trim()`: strip leading and trailing whitespace. -/
def jsTrim (s : String) : String :=
  String.mk (((s.data.dropWhile Char.isWhitespace).reverse.dropWhile Char.isWhitespace).reverse)

/-- storage.generateChatTitle (storage.ts lines 90-94):
`firstMessage.trim().slice(0, 50)`, with `'New Chat'` when the result is
empty (`title || 'New Chat'`). -/
def generateChatTitle (firstMessage : String) : String :=
  let title := jsSlice (jsTrim firstMessage) 50
  if title = "" then "New Chat" else title

/-- `chats[index] = chat` at the first index whose id matches
(`findIndex` + assignment, storage.ts lines 45-48). -/
def replaceChatById (chat : Chat) : List Chat → List Chat
  | [] => []
  | c :: cs => if c.id = chat.id then chat :: cs else c :: replaceChatById chat cs

/-- The upsert half of storage.saveChat (storage.ts lines 45-51):
replace in place when the id is found, otherwise `unshift`. -/
def upsertChat (chat : Chat) (chats : List Chat) : List Chat :=
  if chats.any (fun c => c.id == chat.id) then replaceChatById chat chats
  else chat :: chats

/-- Stable insertion into a list already sorted by descending `updatedAt`:
walk past entries strictly more recent, so ties keep their original order
(JS `sort` is stable). -/
def insertByUpdatedAtDesc (c : Chat) : List Chat → List Chat
  | [] => [c]
  | x :: xs =>
    if c.updatedAt < x.updatedAt then x :: insertByUpdatedAtDesc c xs
    else c :: x :: xs

/-- `chats.sort((a, b) => b.updatedAt - a.updatedAt)` (storage.ts line 54). -/
def sortByUpdatedAtDesc : List Chat → List Chat
  | [] => []
  | c :: cs => insertByUpdatedAtDesc c (sortByUpdatedAtDesc cs)

/-- storage.saveChat (storage.ts lines 42-61): upsert, sort by `updatedAt`
descending, keep only the first `MAX_CHATS`. -/
def saveChat (chat : Chat) (chats : List Chat) : List Chat :=
  (sortByUpdatedAtDesc (upsertChat chat chats)).take MAX_CHATS

/-- The entries a single `saveChat` call discards (`sorted.slice(0, MAX_CHATS)`
drops everything past position `MAX_CHATS`). -/
def evictedBySave (chat : Chat) (chats : List Chat) : List Chat :=
  (sortByUpdatedAtDesc (upsertChat chat chats)).drop MAX_CHATS

/-- A whole sequence of `saveChat` calls run against an initially empty store. -/
def applySaves (ops : List Chat) : List Chat :=
  ops.foldl (fun store c => saveChat c store) []

/-- storage.deleteChat (storage.ts lines 68-76): `chats.filter(c => c.id !== id)`. -/
def deleteChat (id : String) (chats : List Chat) : List Chat :=
  chats.filter (fun c => c.id != id)

/-! ## addMessage (src/ui/src/hooks/useChatHistory.ts lines 93-126)

The hook reads the chat from storage, appends the message, refreshes
`updatedAt`, and auto-derives the title exactly when the message count
transitions 0 -> 1, the title is still the sentinel, and the appended
message has role `user`.  The pure core is the construction of the
updated Chat; the surrounding storage read/write is `saveChat` above. -/

def addMessage (chat : Chat) (message : Message) (now : Nat) : Chat :=
  let updatedChat : Chat :=
    { chat with messages := chat.messages ++ [message], updatedAt := now }
  if updatedChat.messages.length = 1 ∧ updatedChat.title = "New Chat" then
    if message.role = "user" then
      { updatedChat with title := generateChatTitle message.content }
    else updatedChat
  else updatedChat

/-! ## Backend response expansion
(src/ui/src/components/ChatContainer.tsx, handleSend lines 323-365)

On a successful backend call, `handleSend` either walks the returned
`conversation_messages` array, skipping `user`-role entries and appending
one Chat message per remaining entry, or falls back to a single assistant
message built from `choices[0].message`. -/

structure AssistantAudio where
  data : String
  format : String
deriving DecidableEq

/-- `response.choices[0].message` (apiService ChatResponse). -/
structure AssistantMessage where
  role : String
  content : String
  audio : Option AssistantAudio := none
  tool_calls : Option (List ToolCall) := none
deriving DecidableEq

/-- One entry of `response.conversation_messages`. -/
structure ConversationMessage where
  role : String
  content : String
  tool_calls : Option (List ToolCall) := none
  tool_call_id : Option String := none
deriving DecidableEq

/-- JS truthiness of `assistantMessage.audio?.data`: defined and non-empty. -/
def audioDataTruthy (assistantMessage : AssistantMessage) : Bool :=
  match assistantMessage.audio with
  | some a => a.data != ""
  | none => false

/-- The loop body of ChatContainer.tsx lines 339-352: build the Chat message
for one `conversation_messages` entry; audio is attached whenever the entry
has role `assistant` and `assistantMessage.audio?.data` is truthy (the code
never checks that the entry is the final one, despite its comment). -/
def buildConversationMessage (assistantMessage : AssistantMessage) (now : Nat)
    (msg : ConversationMessage) : Message :=
  let conversationMsg : Message :=
    { role := msg.role, content := msg.content, timestamp := now,
      toolCalls := msg.tool_calls, toolCallId := msg.tool_call_id }
  if msg.role = "assistant" ∧ audioDataTruthy assistantMessage = true then
    { conversationMsg with audioData := assistantMessage.audio.map (fun a => a.data) }
  else conversationMsg

/-- The `for (const msg of response.conversation_messages)` loop
(ChatContainer.tsx lines 333-353): `user` entries are skipped with
`continue`, every other entry is appended in order. -/
def appendConversationMessages (assistantMessage : AssistantMessage) (now : Nat) :
    List ConversationMessage → List Message
  | [] => []
  | msg :: rest =>
    if msg.role = "user" then appendConversationMessages assistantMessage now rest
    else buildConversationMessage assistantMessage now msg ::
      appendConversationMessages assistantMessage now rest

/-- The fallback branch (ChatContainer.tsx lines 354-364): one assistant
message built from the top-level completion. -/
def fallbackAssistantMessage (assistantMessage : AssistantMessage) (now : Nat) : Message :=
  { role := "assistant", content := assistantMessage.content,
    audioData := assistantMessage.audio.map (fun a => a.data), timestamp := now,
    toolCalls := assistantMessage.tool_calls }

/-- The messages one successful orchestrated turn appends to the Chat
(ChatContainer.tsx lines 329-365): the guard is
`response.conversation_messages && response.conversation_messages.length > 0`. -/
def handleSendSuccess (assistantMessage : AssistantMessage)
    (conversation_messages : Option (List ConversationMessage)) (now : Nat) : List Message :=
  match conversation_messages with
  | some msgs =>
    if 0 < msgs.length then appendConversationMessages assistantMessage now msgs
    else [fallbackAssistantMessage assistantMessage now]
  | none => [fallbackAssistantMessage assistantMessage now]

/-! ## Outbound history mapping
(src/unnamed/part_009, apiService.sendMessageWithTools lines 201-246)

Every prior Chat message is mapped into the backend's wire schema.  Media
fields (`image_data`, `video_data`, `audio_data`) are set only inside the
`if (msg.role === 'user')` branch; `tool_calls` / `tool_call_id` are set
for any role. -/

/-- One element of the outbound `messages` array. -/
structure ApiMessage where
  role : String
  content : String
  image_data : Option String := none
  video_data : Option String := none
  audio_data : Option String := none
  tool_calls : Option (List ToolCall) := none
  tool_call_id : Option String := none
deriving DecidableEq

/-- JS truthiness guard `if (x) field = x` for an optional string field. -/
def truthyString : Option String → Option String
  | some s => if s = "" then none else some s
  | none => none

/-- Lines 222-229: a truthy `audioData` is sent as-is when it is already a
data URL, otherwise wrapped as `data:audio/wav;base64,` + data. -/
def historyAudioData : Option String → Option String
  | some s =>
    if s = "" then none
    else if s.startsWith ("data:") then some s
    else some (("data:audio/wav;base64,") ++ s)
  | none => none

/-- The loop body of sendMessageWithTools lines 206-244 for one history
message. -/
def mapHistoryMessage (msg : Message) : ApiMessage :=
  let apiMsg : ApiMessage := { role := msg.role, content := msg.content }
  let apiMsg :=
    if msg.role = "user" then
      { apiMsg with
        image_data := truthyString msg.imageUrl,
        video_data := truthyString msg.videoUrl,
        audio_data := historyAudioData msg.audioData }
    else apiMsg
  { apiMsg with
    tool_calls := msg.toolCalls,
    tool_call_id := truthyString msg.toolCallId }

/-! ## MCP provider storage and reconciliation
(src/ui/src/utils/storage.ts lines 100-179,
 src/ui/src/components/MCPServerManager.tsx lines 59-137) -/

/-- The `config` object of a stored MCP server (its transport definition). -/
structure MCPTransportConfig where
  command : Option String := none
  args : Option (List String) := none
  env : Option (List (String × String)) := none
  url : Option String := none
  prefer_sse : Option Bool := none
deriving DecidableEq

/-- One locally persisted entry (storage.ts MCPServerConfig). -/
structure MCPServerConfig where
  id : String
  config : MCPTransportConfig
  lastConnected : Option Nat := none
deriving DecidableEq

/-- One provider as reported by `GET /v1/mcp/servers`. -/
structure BackendMCPServer where
  id : String
  status : String
  config : MCPTransportConfig
  error : Option String := none
deriving DecidableEq

/-- `servers[index] = server` at the first matching id
(mcpStorage.saveServer, storage.ts lines 130-133). -/
def replaceServerById (server : MCPServerConfig) :
    List MCPServerConfig → List MCPServerConfig
  | [] => []
  | s :: ss => if s.id = server.id then server :: ss else s :: replaceServerById server ss

/-- mcpStorage.saveServer (storage.ts lines 127-142): replace by id when
found, otherwise `push`. -/
def saveServer (server : MCPServerConfig) (servers : List MCPServerConfig) :
    List MCPServerConfig :=
  if servers.any (fun s => s.id == server.id) then replaceServerById server servers
  else servers ++ [server]

/-- The local-store effect of syncServersWithBackend
(MCPServerManager.tsx lines 59-91): for every backend server,
`mcpStorage.saveServer({ id, config: backendServer.config })` — the whole
backend config is persisted, with no `lastConnected` and no status.  (The
loop that pushes local-only servers to the backend performs only remote
calls and does not touch the local store.) -/
def syncServersWithBackend (localServers : List MCPServerConfig)
    (backendServers : List BackendMCPServer) : List MCPServerConfig :=
  backendServers.foldl
    (fun store backendServer =>
      saveServer { id := backendServer.id, config := backendServer.config } store)
    localServers

/-- One entry of the in-memory server list shown by the manager. -/
structure MCPServer where
  id : String
  status : String
  config : MCPTransportConfig
  error : Option String := none
deriving DecidableEq

/-- `localServerMap.get(id)` (first match wins, as for a Map built by
insertion). -/
def lookupServer (id : String) (servers : List MCPServerConfig) :
    Option MCPServerConfig :=
  servers.find? (fun s => s.id == id)

/-- The second loop of loadServers (lines 113-122): push local servers whose
id is absent from the merged list, as `disconnected`. -/
def addMissingLocalServers (merged : List MCPServer) :
    List MCPServerConfig → List MCPServer
  | [] => merged
  | localServer :: rest =>
    if merged.any (fun s => s.id == localServer.id) then
      addMissingLocalServers merged rest
    else
      addMissingLocalServers
        (merged ++ [{ id := localServer.id, status := "disconnected",
                      config := localServer.config }]) rest

/-- The in-memory merge of loadServers (MCPServerManager.tsx lines 93-137):
backend status, local config when a local entry exists
(`localServer?.config || backendServer.config`). -/
def mergeServers (backendServers : List BackendMCPServer)
    (localServers : List MCPServerConfig) : List MCPServer :=
  let merged := backendServers.map (fun backendServer =>
    { id := backendServer.id, status := backendServer.status,
      config :=
        match lookupServer backendServer.id localServers with
        | some localServer => localServer.config
        | none => backendServer.config,
      error := backendServer.error : MCPServer })
  addMissingLocalServers merged localServers

/-! ## handleDisconnect (MCPServerManager.tsx lines 183-197)

The remote call, the reload, and the `mcpServerDisconnected` event dispatch
all sit inside one `try` block; a failure of the remote call jumps to the
`catch`, which only records the error message.  The run of the handler is
modelled as the ordered list of UI-visible actions it performs. -/

inductive RemoteCallResult where
  | success
  | failure (message : String)
deriving DecidableEq

inductive UIAction where
  | setLoading (value : Bool)
  | remoteDisconnect (serverId : String)
  | reloadServers
  | dispatchDisconnectedEvent (serverId : String)
  | setError (message : String)
deriving DecidableEq

def handleDisconnect (serverId : String) (remote : RemoteCallResult) : List UIAction :=
  [UIAction.setLoading true, UIAction.remoteDisconnect serverId] ++
    (match remote with
     | RemoteCallResult.success =>
       [UIAction.reloadServers, UIAction.dispatchDisconnectedEvent serverId]
     | RemoteCallResult.failure message =>
       [UIAction.setError (if message = "" then ("Failed to disconnect") else message)]) ++
    [UIAction.setLoading false]

/-! ## handleAddServer (MCPServerManager.tsx lines 230-305)

Validation happens before `apiService.connectMCPServer` is invoked and
before anything is written to `mcpStorage`.  The environment-variable JSON
parser and the remote connect call are inputs of the model: `envParse`
returns `none` exactly when `JSON.parse` would throw, and `connectOutcome`
is what the remote call would do if reached. -/

inductive ConnectOutcome where
  | ok
  | rejected (error : Option String)
  | threw (message : String)
deriving DecidableEq

/-- The `newServerConfig` form state (lines 29-36). -/
structure NewServerConfig where
  type : String
  command : String
  args : String
  env : String
  url : String
  prefer_sse : Bool
deriving DecidableEq

structure AddServerResult where
  store : List MCPServerConfig
  error : Option String
  connectAttempted : Bool
  modalClosed : Bool
deriving DecidableEq

/-- `args.split(',').map(a => a.trim()).filter(Boolean)` (line 247). -/
def parseArgsList (args : String) : List String :=
  ((args.splitOn (",")).map jsTrim).filter (fun a => a != "")

/-- Lines 268-299: the connect call and its aftermath, reached only after
validation passed. -/
def attemptAddConnect (connectOutcome : ConnectOutcome) (newServerId : String)
    (config : MCPTransportConfig) (store : List MCPServerConfig) (now : Nat) :
    AddServerResult :=
  match connectOutcome with
  | ConnectOutcome.ok =>
    { store := saveServer { id := newServerId, config := config, lastConnected := some now } store,
      error := none, connectAttempted := true, modalClosed := true }
  | ConnectOutcome.rejected err =>
    { store := store,
      error := some (match err with
        | some e => if e = "" then ("Failed to add server") else e
        | none => ("Failed to add server")),
      connectAttempted := true, modalClosed := false }
  | ConnectOutcome.threw message =>
    { store := store,
      error := some (if message = "" then ("Failed to add server") else message),
      connectAttempted := true, modalClosed := false }

def handleAddServer (envParse : String → Option (List (String × String)))
    (connectOutcome : ConnectOutcome) (newServerId : String)
    (newServerConfig : NewServerConfig) (store : List MCPServerConfig) (now : Nat) :
    AddServerResult :=
  if jsTrim newServerId = "" then
    { store := store, error := some ("Server ID is required"),
      connectAttempted := false, modalClosed := false }
  else if newServerConfig.type = "stdio" then
    if newServerConfig.command = "" then
      { store := store, error := some ("Command is required for STDIO servers"),
        connectAttempted := false, modalClosed := false }
    else
      let config0 : MCPTransportConfig := { command := some newServerConfig.command }
      let config1 :=
        if newServerConfig.args = "" then config0
        else { config0 with args := some (parseArgsList newServerConfig.args) }
      if newServerConfig.env = "" then
        attemptAddConnect connectOutcome newServerId config1 store now
      else
        match envParse newServerConfig.env with
        | some envMap =>
          attemptAddConnect connectOutcome newServerId
            { config1 with env := some envMap } store now
        | none =>
          { store := store, error := some ("Invalid JSON in environment variables"),
            connectAttempted := false, modalClosed := false }
  else
    if newServerConfig.url = "" then
      { store := store, error := some ("URL is required for HTTP servers"),
        connectAttempted := false, modalClosed := false }
    else
      attemptAddConnect connectOutcome newServerId
        { url := some newServerConfig.url, prefer_sse := some newServerConfig.prefer_sse }
        store now

/-! ## handleSend failure path (ChatContainer.tsx lines 366-381)

On a thrown backend error the orchestrator flips the server status to
offline when the error message mentions a connection problem, and appends
one synthetic assistant message carrying the error text.  The already
persisted user turn is whatever `chat` holds; it is not rolled back. -/

def containsAux (needle : List Char) : List Char → Bool
  | [] => needle.isEmpty
  | c :: cs => List.isPrefixOf needle (c :: cs) || containsAux needle cs

/-- JS `s.includes(sub)`. -/
def jsIncludes (s sub : String) : Bool := containsAux sub.data s.data

/-- `error.message?.includes('connect') || error.message?.includes('No response')`
(line 368). -/
def isConnectionError (errorText : String) : Bool :=
  jsIncludes errorText ("connect") || jsIncludes errorText ("No response")

def fallbackErrorText : String := "Failed to get response from server"

/-- The synthetic assistant message (lines 373-377):
content is `Error: ` + (`error.message || 'Failed to get response from server'`). -/
def mkErrorMessage (errorText : String) (now : Nat) : Message :=
  { role := "assistant",
    content := ("Error: ") ++ (if errorText = "" then fallbackErrorText else errorText),
    timestamp := now }

structure SendFailureResult where
  chat : Chat
  serverStatus : String
deriving DecidableEq

/-- The whole catch block (lines 366-381), given the Chat as it stands after
the optimistic user write. -/
def handleSendFailure (chat : Chat) (serverStatus : String) (errorText : String)
    (now : Nat) : SendFailureResult :=
  let status := if isConnectionError errorText then "offline" else serverStatus
  { chat := addMessage chat (mkErrorMessage errorText now) now, serverStatus := status }

/-! ## Helper lemmas about the descending sort -/

theorem perm_insertByUpdatedAtDesc (c : Chat) (l : List Chat) :
    List.Perm (insertByUpdatedAtDesc c l) (c :: l) := by
  induction l with
  | nil => exact List.Perm.refl _
  | cons x xs ih =>
    rw [insertByUpdatedAtDesc]
    by_cases h : c.updatedAt < x.updatedAt
    · rw [if_pos h]
      exact (List.Perm.cons x ih).trans (List.Perm.swap c x xs)
    · rw [if_neg h]

theorem perm_sortByUpdatedAtDesc (l : List Chat) :
    List.Perm (sortByUpdatedAtDesc l) l := by
  induction l with
  | nil => exact List.Perm.refl _
  | cons c cs ih =>
    rw [sortByUpdatedAtDesc]
    exact (perm_insertByUpdatedAtDesc c (sortByUpdatedAtDesc cs)).trans (List.Perm.cons c ih)

theorem pairwise_insertByUpdatedAtDesc (c : Chat) (l : List Chat)
    (h : List.Pairwise (fun a b => b.updatedAt ≤ a.updatedAt) l) :
    List.Pairwise (fun a b => b.updatedAt ≤ a.updatedAt) (insertByUpdatedAtDesc c l) := by
  induction l with
  | nil => simp [insertByUpdatedAtDesc]
  | cons x xs ih =>
    rw [insertByUpdatedAtDesc]
    rcases List.pairwise_cons.mp h with ⟨hx, hxs⟩
    by_cases hlt : c.updatedAt < x.updatedAt
    · rw [if_pos hlt]
      refine List.pairwise_cons.mpr ⟨?_, ih hxs⟩
      intro b hb
      have hb' : b ∈ c :: xs := (perm_insertByUpdatedAtDesc c xs).mem_iff.mp hb
      rcases List.mem_cons.mp hb' with rfl | hb''
      · exact Nat.le_of_lt hlt
      · exact hx b hb''
    · rw [if_neg hlt]
      have hxc : x.updatedAt ≤ c.updatedAt := Nat.le_of_not_lt hlt
      refine List.pairwise_cons.mpr ⟨?_, h⟩
      intro b hb
      rcases List.mem_cons.mp hb with rfl | hb'
      · exact hxc
      · exact Nat.le_trans (hx b hb') hxc

theorem pairwise_sortByUpdatedAtDesc (l : List Chat) :
    List.Pairwise (fun a b => b.updatedAt ≤ a.updatedAt) (sortByUpdatedAtDesc l) := by
  induction l with
  | nil => simp [sortByUpdatedAtDesc]
  | cons c cs ih =>
    rw [sortByUpdatedAtDesc]
    exact pairwise_insertByUpdatedAtDesc c _ ih

theorem saveChat_length_le (chat : Chat) (chats : List Chat) :
    (saveChat chat chats).length ≤ MAX_CHATS := by
  rw [saveChat, List.length_take]
  exact Nat.min_le_left _ _

theorem foldl_saveChat_length_le (ops : List Chat) (init : List Chat)
    (h : init.length ≤ MAX_CHATS) :
    (ops.foldl (fun store c => saveChat c store) init).length ≤ MAX_CHATS := by
  induction ops generalizing init with
  | nil => exact h
  | cons c rest ih =>
    rw [List.foldl_cons]
    exact ih _ (saveChat_length_le c init)

/-! ## Fixtures -/

/-- A chat fixture: id `c` + i, updatedAt i + 1. -/
def mkChatFixture (i : Nat) : Chat :=
  { id := ("c") ++ toString i, title := ("t"), messages := [], createdAt := 0,
    updatedAt := i + 1 }

/-- A later re-save of the chat with id `c50`, now carrying updatedAt 0. -/
def lateLowChat : Chat := { mkChatFixture 50 with updatedAt := 0 }

/-- 51 saves of distinct chats with updatedAt 1..51, followed by a re-save
of `c50` with updatedAt 0. -/
def overflowSaves : List Chat := ((List.range 51).map mkChatFixture) ++ [lateLowChat]

/-- A full store of 51 distinct chats (updatedAt 1..51). -/
def fullStoreFixture : List Chat := (List.range 51).map mkChatFixture

/-! ## C1 -/

/-- C1, counterexample: after the 52 `saveChat` calls of `overflowSaves`
(51 distinct ids, then a re-save of `c50` with `updatedAt` 0), the store
read back contains the re-saved `c50` with `updatedAt` 0 but no longer
contains `c0`, whose last saved version has the larger `updatedAt` 1.
With more than `MAX_CHATS` distinct ids ever saved, the retained entries
are therefore not the 50 chats with the greatest `updatedAt` values among
the saved chats: eviction happens per save and is never revisited. -/
theorem saveChat_retained_not_globally_most_recent :
    ((overflowSaves.map (fun c => c.id)).dedup.length = 51) ∧
    (applySaves overflowSaves).length = 50 ∧
    lateLowChat ∈ applySaves overflowSaves ∧
    mkChatFixture 0 ∉ applySaves overflowSaves ∧
    lateLowChat.updatedAt < (mkChatFixture 0).updatedAt := by decide

/-- C1, amended: for every sequence of `saveChat` calls against an initially
empty store the stored collection afterwards has at most `MAX_CHATS` (50)
entries, and each individual save retains a greatest-by-`updatedAt` portion
of the collection as it stands at that save: the retained entries together
with the entries discarded by that save are a permutation of the upserted
collection, and every discarded entry's `updatedAt` is less than or equal
to every retained entry's.  (Chats evicted by an earlier save are never
reconsidered, so the final store need not be the 50 globally
most-recently-updated chats ever saved.) -/
theorem saveChat_capacity_and_per_save_eviction :
    (∀ ops : List Chat, (applySaves ops).length ≤ MAX_CHATS) ∧
    (∀ chat chats, List.Perm (saveChat chat chats ++ evictedBySave chat chats)
      (upsertChat chat chats)) ∧
    (∀ chat chats x y, x ∈ saveChat chat chats → y ∈ evictedBySave chat chats →
      y.updatedAt ≤ x.updatedAt) := by
  refine ⟨?_, ?_, ?_⟩
  · intro ops
    exact foldl_saveChat_length_le ops [] (by simp)
  · intro chat chats
    rw [saveChat, evictedBySave, List.take_append_drop]
    exact perm_sortByUpdatedAtDesc _
  · intro chat chats x y hx hy
    have hpw := pairwise_sortByUpdatedAtDesc (upsertChat chat chats)
    rw [← List.take_append_drop MAX_CHATS (sortByUpdatedAtDesc (upsertChat chat chats))] at hpw
    exact (List.pairwise_append.mp hpw).2.2 x hx y hy

/-- C1, witness for the amended theorem at concrete inputs: the 52-save
sequence leaves at most 50 entries, and re-saving `c50` with `updatedAt` 0
into a full 51-chat store evicts exactly that chat, whose `updatedAt` is
below the retained `c49`'s. -/
theorem saveChat_capacity_and_per_save_eviction_witness :
    (applySaves overflowSaves).length ≤ MAX_CHATS ∧
    lateLowChat.updatedAt ≤ (mkChatFixture 49).updatedAt :=
  ⟨saveChat_capacity_and_per_save_eviction.1 overflowSaves,
   saveChat_capacity_and_per_save_eviction.2.2 lateLowChat fullStoreFixture
     (mkChatFixture 49) lateLowChat (by decide) (by decide)⟩

/-! ## C2 -/

theorem jsSlice_eq_empty_iff (s : String) : jsSlice s 50 = "" ↔ s = "" := by
  rw [String.ext_iff, String.ext_iff]
  show s.data.take 50 = ("" : String).data ↔ s.data = ("" : String).data
  have h : ("" : String).data = [] := rfl
  rw [h]
  simp [List.take_eq_nil_iff]

/-- C2: appending the first message to a Chat whose title is still the
sentinel `New Chat` sets the title to the first 50 characters of the
message's trimmed content when the message's role is `user`, falling back
to `New Chat` when the trimmed content is empty; and appending to a Chat
that already holds at least one message never changes the title. -/
theorem addMessage_title_auto (chat : Chat) (message : Message) (now : Nat) :
    (chat.messages = [] → chat.title = "New Chat" → message.role = "user" →
      (addMessage chat message now).title =
        (if jsTrim message.content = "" then ("New Chat")
         else jsSlice (jsTrim message.content) 50)) ∧
    (chat.messages ≠ [] → (addMessage chat message now).title = chat.title) := by
  constructor
  · intro h1 h2 h3
    simp [addMessage, h1, h2, h3, generateChatTitle, jsSlice_eq_empty_iff]
  · intro h
    rw [addMessage]
    split
    · rename_i hc
      exfalso
      have hlen := hc.1
      simp [List.length_append] at hlen
      exact h hlen
    · rfl

def emptyNewChat : Chat :=
  { id := ("w2"), title := "New Chat", messages := [], createdAt := 0, updatedAt := 0 }

def helloUserMessage : Message :=
  { role := "user", content := ("  Hello there  "), timestamp := 1 }

def titledChat : Chat :=
  { id := ("w2b"), title := ("Old Title"), messages := [helloUserMessage],
    createdAt := 0, updatedAt := 0 }

/-- C2, witness: a first user message sets the title to its trimmed content,
and appending to a chat that already has a message leaves its title alone. -/
theorem addMessage_title_auto_witness :
    (addMessage emptyNewChat helloUserMessage 5).title = ("Hello there") ∧
    (addMessage titledChat helloUserMessage 5).title = ("Old Title") := by
  constructor
  · have h := (addMessage_title_auto emptyNewChat helloUserMessage 5).1 rfl rfl rfl
    rw [h]
    decide
  · rw [(addMessage_title_auto titledChat helloUserMessage 5).2 (by decide)]
    rfl

/-! ## C3 -/

theorem appendConversationMessages_eq_filter_map (assistantMessage : AssistantMessage)
    (now : Nat) (l : List ConversationMessage) :
    appendConversationMessages assistantMessage now l =
      (l.filter (fun m => m.role != "user")).map
        (buildConversationMessage assistantMessage now) := by
  induction l with
  | nil => rfl
  | cons m ms ih =>
    rw [appendConversationMessages]
    by_cases h : m.role = "user"
    · simp [h, ih, List.filter_cons]
    · simp [h, ih, List.filter_cons]

/-- C3: on a successful backend call with a non-empty `conversation_messages`
array, the orchestrator appends exactly the non-`user`-role entries, one
Chat message per entry, in the array's order (a filter-map of the array),
with role, content, tool calls and tool-call id preserved; with no array or
an empty one, it appends exactly one assistant message built from the
top-level completion. -/
theorem handleSendSuccess_appends (assistantMessage : AssistantMessage)
    (conversation_messages : Option (List ConversationMessage)) (now : Nat) :
    (∀ msgs, conversation_messages = some msgs → msgs ≠ [] →
      handleSendSuccess assistantMessage conversation_messages now =
        (msgs.filter (fun m => m.role != "user")).map
          (buildConversationMessage assistantMessage now)) ∧
    (∀ msg, (buildConversationMessage assistantMessage now msg).role = msg.role ∧
      (buildConversationMessage assistantMessage now msg).content = msg.content ∧
      (buildConversationMessage assistantMessage now msg).toolCalls = msg.tool_calls ∧
      (buildConversationMessage assistantMessage now msg).toolCallId = msg.tool_call_id) ∧
    ((conversation_messages = none ∨ conversation_messages = some []) →
      handleSendSuccess assistantMessage conversation_messages now =
        [fallbackAssistantMessage assistantMessage now] ∧
      (fallbackAssistantMessage assistantMessage now).role = "assistant" ∧
      (fallbackAssistantMessage assistantMessage now).content = assistantMessage.content) := by
  refine ⟨?_, ?_, ?_⟩
  · intro msgs h hne
    subst h
    have hpos : 0 < msgs.length := List.length_pos.mpr hne
    simp [handleSendSuccess, hpos, appendConversationMessages_eq_filter_map]
  · intro msg
    unfold buildConversationMessage
    split
    · exact ⟨rfl, rfl, rfl, rfl⟩
    · exact ⟨rfl, rfl, rfl, rfl⟩
  · intro h
    rcases h with h | h <;> subst h
    · exact ⟨rfl, rfl, rfl⟩
    · exact ⟨rfl, rfl, rfl⟩

def weatherToolCall : ToolCall :=
  { id := ("t1"), type := ("function"),
    function := { name := ("get_weather"), arguments := ("") } }

def scenarioAssistantMessage : AssistantMessage :=
  { role := "assistant", content := ("It is 72F") }

/-- Scenario B of the spec: user echo, assistant tool call, tool result,
final assistant message. -/
def scenarioConversation : List ConversationMessage :=
  [ { role := "user", content := ("weather?") },
    { role := "assistant", content := (""), tool_calls := some [weatherToolCall] },
    { role := "tool", content := ("72F"), tool_call_id := some ("t1") },
    { role := "assistant", content := ("It is 72F") } ]

/-- C3, witness at the Scenario B fixture. -/
theorem handleSendSuccess_appends_witness :
    handleSendSuccess scenarioAssistantMessage (some scenarioConversation) 9 =
      (scenarioConversation.filter (fun m => m.role != "user")).map
        (buildConversationMessage scenarioAssistantMessage 9) :=
  (handleSendSuccess_appends scenarioAssistantMessage (some scenarioConversation) 9).1
    scenarioConversation rfl (by decide)

/-! ## C4 -/

def audioAssistantMessage : AssistantMessage :=
  { role := "assistant", content := ("It is 72F"),
    audio := some { data := ("AUD"), format := ("wav") } }

/-- A backend turn whose expansion holds two assistant entries. -/
def audioConversation : List ConversationMessage :=
  [ { role := "assistant", content := (""), tool_calls := some [weatherToolCall] },
    { role := "tool", content := ("72F"), tool_call_id := some ("t1") },
    { role := "assistant", content := ("It is 72F") } ]

/-- C4, code-bug evidence: with an audio payload and a
`conversation_messages` array holding two assistant entries, the code
attaches the audio payload to every assistant entry it appends — the first
appended message already carries `audioData`, not only the final one.  The
condition at ChatContainer.tsx line 348 tests only
`msg.role === 'assistant' && assistantMessage.audio?.data` and never checks
that the entry is the last, although its own comment says
`if this is the final assistant message`. -/
theorem handleSendSuccess_audio_attached_to_every_assistant :
    ((handleSendSuccess audioAssistantMessage (some audioConversation) 3).map
      (fun m => m.audioData)) = [some ("AUD"), none, some ("AUD")] := by decide

/-! ## C5 -/

/-- C5: the outbound history mapping preserves the role of every prior
message and copies media fields (`image_data`, `video_data`, `audio_data`)
only when the message's role is `user`; for any other role — in particular
`assistant` — none of `audioData`, `imageUrl`, `videoUrl` reaches the wire
message.  Tool calls and tool-call ids are copied for every role. -/
theorem mapHistoryMessage_media_policy (msg : Message) :
    (mapHistoryMessage msg).role = msg.role ∧
    (mapHistoryMessage msg).content = msg.content ∧
    (mapHistoryMessage msg).tool_calls = msg.toolCalls ∧
    (mapHistoryMessage msg).tool_call_id = truthyString msg.toolCallId ∧
    (msg.role ≠ "user" →
      (mapHistoryMessage msg).image_data = none ∧
      (mapHistoryMessage msg).video_data = none ∧
      (mapHistoryMessage msg).audio_data = none) ∧
    (msg.role = "user" →
      (mapHistoryMessage msg).image_data = truthyString msg.imageUrl ∧
      (mapHistoryMessage msg).video_data = truthyString msg.videoUrl ∧
      (mapHistoryMessage msg).audio_data = historyAudioData msg.audioData) := by
  by_cases h : msg.role = "user" <;> simp [mapHistoryMessage, h]

/-- An assistant-authored history message that carries synthesized media. -/
def assistantHistoryMessage : Message :=
  { role := "assistant", content := ("hi"), audioData := some ("QUJD"),
    imageUrl := some ("imgdata"), videoUrl := some ("viddata"), timestamp := 2 }

/-- C5, witness: the assistant message's media never reach the wire. -/
theorem mapHistoryMessage_media_policy_witness :
    (mapHistoryMessage assistantHistoryMessage).image_data = none ∧
    (mapHistoryMessage assistantHistoryMessage).video_data = none ∧
    (mapHistoryMessage assistantHistoryMessage).audio_data = none :=
  (mapHistoryMessage_media_policy assistantHistoryMessage).2.2.2.2.1 (by decide)

/-! ## C6 -/

def c6LocalServers : List MCPServerConfig :=
  [{ id := ("s"), config := { command := some ("local-cmd") } }]

def c6BackendServers : List BackendMCPServer :=
  [{ id := ("s"), status := ("connected"), config := { command := some ("remote-cmd") } }]

/-- C6, code-bug evidence: a provider `s` is persisted locally with command
`local-cmd` while the remote authority reports it with the (stale) command
`remote-cmd`.  The startup reconciliation `syncServersWithBackend` persists
the backend's whole config object for every remote provider
(MCPServerManager.tsx lines 82-87), so after the sync the locally persisted
transport config for `s` is `remote-cmd`: the remote config has overwritten
the local one, and no status was persisted — contradicting the claim (and
the `local storage is source of truth for configs` comment at line 100 of
the same file, which only the in-memory `mergeServers` view honours). -/
theorem syncServersWithBackend_overwrites_local_config :
    (c6LocalServers.map (fun s => (s.id, s.config.command)) =
      [(("s"), some ("local-cmd"))]) ∧
    ((syncServersWithBackend c6LocalServers c6BackendServers).map
      (fun s => (s.id, s.config.command)) = [(("s"), some ("remote-cmd"))]) := by decide

/-! ## C7 -/

/-- C7, counterexample: when the remote disconnect call fails, the handler
run contains no `mcpServerDisconnected` dispatch at all — the dispatch sits
after the `await` inside the `try` block, so the thrown error skips it. -/
theorem handleDisconnect_failure_no_event :
    UIAction.dispatchDisconnectedEvent ("srv") ∉
      handleDisconnect ("srv") (RemoteCallResult.failure ("network down")) := by decide

/-- C7, amended: `handleDisconnect` dispatches the `mcpServerDisconnected`
event exactly when the remote disconnect call succeeds; when the remote
call fails, no event is dispatched for any server id and the error message
is surfaced instead. -/
theorem handleDisconnect_event_iff_success (serverId message : String) :
    (UIAction.dispatchDisconnectedEvent serverId ∈
      handleDisconnect serverId RemoteCallResult.success) ∧
    (∀ sid, UIAction.dispatchDisconnectedEvent sid ∉
      handleDisconnect serverId (RemoteCallResult.failure message)) ∧
    ((UIAction.setError (if message = "" then ("Failed to disconnect") else message)) ∈
      handleDisconnect serverId (RemoteCallResult.failure message)) := by
  refine ⟨?_, ?_, ?_⟩ <;> simp [handleDisconnect]

/-- C7, witness for the amended theorem at concrete inputs. -/
theorem handleDisconnect_event_iff_success_witness :
    (UIAction.dispatchDisconnectedEvent ("a") ∈
      handleDisconnect ("a") RemoteCallResult.success) ∧
    (UIAction.dispatchDisconnectedEvent ("a") ∉
      handleDisconnect ("a") (RemoteCallResult.failure ("x"))) :=
  ⟨(handleDisconnect_event_iff_success ("a") ("x")).1,
   (handleDisconnect_event_iff_success ("a") ("x")).2.1 ("a")⟩

/-! ## C8 -/

/-- C8: adding a provider with transport `stdio` and an empty command, or
transport `http` and an empty URL, is rejected before any connect call:
the result records a validation error, marks no connect attempt, and
leaves the persisted store untouched; when the server id is non-blank the
error is the specific per-transport validation message. -/
theorem handleAddServer_validation (envParse : String → Option (List (String × String)))
    (connectOutcome : ConnectOutcome) (newServerId : String)
    (newServerConfig : NewServerConfig) (store : List MCPServerConfig) (now : Nat) :
    (newServerConfig.type = "stdio" → newServerConfig.command = "" →
      (handleAddServer envParse connectOutcome newServerId newServerConfig store now).connectAttempted = false ∧
      (handleAddServer envParse connectOutcome newServerId newServerConfig store now).store = store ∧
      (handleAddServer envParse connectOutcome newServerId newServerConfig store now).error.isSome = true) ∧
    (newServerConfig.type = "http" → newServerConfig.url = "" →
      (handleAddServer envParse connectOutcome newServerId newServerConfig store now).connectAttempted = false ∧
      (handleAddServer envParse connectOutcome newServerId newServerConfig store now).store = store ∧
      (handleAddServer envParse connectOutcome newServerId newServerConfig store now).error.isSome = true) ∧
    (jsTrim newServerId ≠ "" → newServerConfig.type = "stdio" → newServerConfig.command = "" →
      (handleAddServer envParse connectOutcome newServerId newServerConfig store now).error =
        some ("Command is required for STDIO servers")) ∧
    (jsTrim newServerId ≠ "" → newServerConfig.type = "http" → newServerConfig.url = "" →
      (handleAddServer envParse connectOutcome newServerId newServerConfig store now).error =
        some ("URL is required for HTTP servers")) := by
  refine ⟨?_, ?_, ?_, ?_⟩
  · intro ht hc
    by_cases hid : jsTrim newServerId = "" <;> simp [handleAddServer, ht, hc, hid]
  · intro ht hu
    by_cases hid : jsTrim newServerId = "" <;> simp [handleAddServer, ht, hu, hid]
  · intro hid ht hc
    simp [handleAddServer, ht, hc, hid]
  · intro hid ht hu
    simp [handleAddServer, ht, hu, hid]

/-- The form state of spec Scenario D: transport `stdio`, empty command. -/
def stdioEmptyCommandConfig : NewServerConfig :=
  { type := "stdio", command := "", args := "", env := "", url := "", prefer_sse := false }

/-- C8, witness at the Scenario D fixture. -/
theorem handleAddServer_validation_witness :
    (handleAddServer (fun _ => none) ConnectOutcome.ok ("srv") stdioEmptyCommandConfig [] 7).connectAttempted = false ∧
    (handleAddServer (fun _ => none) ConnectOutcome.ok ("srv") stdioEmptyCommandConfig [] 7).store = [] ∧
    (handleAddServer (fun _ => none) ConnectOutcome.ok ("srv") stdioEmptyCommandConfig [] 7).error =
      some ("Command is required for STDIO servers") := by
  have h := handleAddServer_validation (fun _ => none) ConnectOutcome.ok ("srv")
    stdioEmptyCommandConfig [] 7
  exact ⟨(h.1 rfl rfl).1, (h.1 rfl rfl).2.1, h.2.2.1 (by decide) rfl rfl⟩

/-! ## C9 -/

theorem addMessage_messages (chat : Chat) (message : Message) (now : Nat) :
    (addMessage chat message now).messages = chat.messages ++ [message] := by
  rw [addMessage]
  split
  · split
    · rfl
    · rfl
  · rfl

/-- C9: when the backend call throws, the catch block appends exactly one
assistant message to the Chat (the synthetic error message, whose content
carries the error text as a suffix of the `Error: ` prefix), leaves every
previously persisted message — in particular the optimistic user turn —
unchanged as a prefix, and flips the server status to `offline` exactly
when the error message matches the connection-problem test
(`includes('connect') || includes('No response')`). -/
theorem handleSendFailure_spec (chat : Chat) (serverStatus errorText : String) (now : Nat) :
    ((handleSendFailure chat serverStatus errorText now).chat.messages =
      chat.messages ++ [mkErrorMessage errorText now]) ∧
    ((handleSendFailure chat serverStatus errorText now).chat.messages.take
      chat.messages.length = chat.messages) ∧
    ((mkErrorMessage errorText now).role = "assistant") ∧
    (errorText ≠ "" → ∃ p, (mkErrorMessage errorText now).content = p ++ errorText) ∧
    (isConnectionError errorText = true →
      (handleSendFailure chat serverStatus errorText now).serverStatus = "offline") ∧
    (isConnectionError errorText = false →
      (handleSendFailure chat serverStatus errorText now).serverStatus = serverStatus) := by
  have h1 : (handleSendFailure chat serverStatus errorText now).chat.messages =
      chat.messages ++ [mkErrorMessage errorText now] :=
    addMessage_messages chat (mkErrorMessage errorText now) now
  refine ⟨h1, ?_, rfl, ?_, ?_, ?_⟩
  · rw [h1]
    exact List.take_left chat.messages [mkErrorMessage errorText now]
  · intro h
    exact ⟨("Error: "), by simp [mkErrorMessage, h]⟩
  · intro h
    simp [handleSendFailure, h]
  · intro h
    simp [handleSendFailure, h]

/-- A Chat holding the already persisted user turn. -/
def userTurnChat : Chat :=
  { id := ("w9"), title := ("T"),
    messages := [{ role := "user", content := ("hi"), timestamp := 1 }],
    createdAt := 0, updatedAt := 1 }

/-- The normalized message apiService throws on a transport-level failure. -/
def connectionErrorText : String :=
  "No response from server. Make sure the server is running."

/-- C9, witness: a transport-level failure appends the error message after
the untouched user turn and flips the status to offline. -/
theorem handleSendFailure_spec_witness :
    ((handleSendFailure userTurnChat ("online") connectionErrorText 4).serverStatus =
      "offline") ∧
    ((handleSendFailure userTurnChat ("online") connectionErrorText 4).chat.messages.take
      userTurnChat.messages.length = userTurnChat.messages) ∧
    (∃ p, (mkErrorMessage connectionErrorText 4).content = p ++ connectionErrorText) := by
  refine ⟨?_, ?_, ?_⟩
  · exact (handleSendFailure_spec userTurnChat ("online") connectionErrorText 4).2.2.2.2.1
      (by decide)
  · exact (handleSendFailure_spec userTurnChat ("online") connectionErrorText 4).2.1
  · exact (handleSendFailure_spec userTurnChat ("online") connectionErrorText 4).2.2.2.1
      (by decide)

/-! ## C10 -/

/-- C10: `deleteChat id` keeps the stored chats in their relative order (the
result is a sublist of the input), retains no entry whose id equals the
given id, retains every entry whose id differs — with its multiplicity
unchanged — and is the identity when no stored chat carries the id. -/
theorem deleteChat_spec (id : String) (chats : List Chat) :
    ((deleteChat id chats).Sublist chats) ∧
    (∀ c, c ∈ deleteChat id chats → c.id ≠ id) ∧
    (∀ c, c ∈ chats → c.id ≠ id → c ∈ deleteChat id chats) ∧
    (∀ c, c.id ≠ id → (deleteChat id chats).count c = chats.count c) ∧
    ((∀ c, c ∈ chats → c.id ≠ id) → deleteChat id chats = chats) := by
  refine ⟨List.filter_sublist _, ?_, ?_, ?_, ?_⟩
  · intro c hc
    have h := (List.mem_filter.mp hc).2
    simpa using h
  · intro c hc hne
    exact List.mem_filter.mpr ⟨hc, by simpa using hne⟩
  · intro c hne
    exact List.count_filter (by simpa using hne)
  · intro h
    exact List.filter_eq_self.mpr (fun c hc => by simpa using h c hc)

def chatFixtureA : Chat :=
  { id := ("a"), title := ("ta"), messages := [], createdAt := 0, updatedAt := 1 }

def chatFixtureB : Chat :=
  { id := ("b"), title := ("tb"), messages := [], createdAt := 0, updatedAt := 2 }

/-- C10, witness: deleting an absent id is the identity, and deleting `b`
retains `a`. -/
theorem deleteChat_spec_witness :
    (deleteChat ("zz") [chatFixtureA, chatFixtureB] = [chatFixtureA, chatFixtureB]) ∧
    (chatFixtureA ∈ deleteChat ("b") [chatFixtureA, chatFixtureB]) := by
  refine ⟨?_, ?_⟩
  · exact (deleteChat_spec ("zz") [chatFixtureA, chatFixtureB]).2.2.2.2
      (by decide)
  · exact (deleteChat_spec ("b") [chatFixtureA, chatFixtureB]).2.2.1 chatFixtureA
      (by decide) (by decide)
